import Mathlib

/-!
Verification of the hotel-management backend's booking, document, file-validation,
authentication and customer logic, shallowly embedded from the Python source
(`app/models/enums.py`, `app/models/bookings.py`, `app/api/endpoints/bookings.py`,
`app/api/endpoints/documents.py`, `app/services/file_validator.py`,
`app/services/s3_service.py`, `app/crud/crud_user.py`, `app/api/endpoints/auth.py`,
`app/models/customer.py`, `app/api/endpoints/customers.py`).

Dates and timestamps are modelled as integers (day ordinals / epoch instants),
monetary amounts as rationals, file contents as byte lists.  Database sessions
become explicit state passing: each endpoint takes the current table contents and
returns the outcome together with the post-state; the `get_session` context
manager rolls back on any exception, so every error outcome leaves the state
unchanged.  External collaborators (the object store, libmagic content sniffing,
bcrypt verification) are parameters of the functions that call them.
-/

namespace Hotel

/-- `BookingStatus` from `app/models/enums.py` (the six declared members). -/
inductive BookingStatus where
  | prebooked
  | confirmed
  | checked_in
  | checked_out
  | no_show
  | cancelled
deriving DecidableEq

/-- `PaymentStatus` from `app/models/enums.py`.  The Python member named after the
value "partial" is rendered `partialPaid` here (its name collides with a Lean keyword). -/
inductive PaymentStatus where
  | pending
  | partialPaid
  | paid
  | refunded
deriving DecidableEq

/-- Python attribute lookup `BookingStatus.<NAME>` on the enum class: it yields the
member when one of that name is declared and raises `AttributeError` (modelled as
`none`) otherwise.  `enums.py` declares no `PENDING` member on `BookingStatus`. -/
def BookingStatus.member : String → Option BookingStatus
  | "PREBOOKED" => some .prebooked
  | "CONFIRMED" => some .confirmed
  | "CHECKED_IN" => some .checked_in
  | "CHECKED_OUT" => some .checked_out
  | "NO_SHOW" => some .no_show
  | "CANCELLED" => some .cancelled
  | _ => none

/-- A row of the `bookings` table (`BookingDB` in `app/models/bookings.py`). -/
structure Booking where
  id : Nat
  room_id : Nat
  customer_id : Nat
  scheduled_check_in : Int
  scheduled_check_out : Int
  actual_check_in : Option Int
  actual_check_out : Option Int
  booking_status : BookingStatus
  payment_status : PaymentStatus
  total_amount : Rat
  amount_paid : Rat
  additional_charges : Rat
  notes : Option String
deriving DecidableEq

/-- The request body `BookingCreate` (`app/models/bookings.py`). -/
structure BookingCreate where
  room_id : Nat
  customer_id : Nat
  scheduled_check_in : Int
  scheduled_check_out : Int
  payment_status : PaymentStatus
  booking_status : BookingStatus
  total_amount : Rat
  amount_paid : Rat
  additional_charges : Rat
  notes : Option String
deriving DecidableEq

/-- The pydantic field validators of `BookingCreate`, in field-declaration order
(`scheduled_check_in`, `scheduled_check_out`, `total_amount`, `amount_paid`):
check-in not in the past, check-out strictly after check-in, total amount
positive, amount paid within `[0, total_amount]`. -/
def BookingCreate.validate (today : Int) (b : BookingCreate) : Except String BookingCreate :=
  if b.scheduled_check_in < today then .error "Check-in date cannot be in the past"
  else if b.scheduled_check_out ≤ b.scheduled_check_in then
    .error "Check-out date must be after check-in date"
  else if b.total_amount ≤ 0 then .error "Total amount must be greater than zero"
  else if b.amount_paid < 0 then .error "Amount paid cannot be negative"
  else if b.total_amount < b.amount_paid then .error "Amount paid cannot exceed total amount"
  else .ok b

/-- An `HTTPException`: status code and detail message. -/
structure HTTPError where
  status_code : Nat
  detail : String
deriving DecidableEq

/-- Decidable equality of outcomes, so concrete endpoint runs can be checked by
`decide`. -/
instance exceptDecEq {ε α : Type} [DecidableEq ε] [DecidableEq α] :
    DecidableEq (Except ε α) := fun a b =>
  match a, b with
  | .error e, .error f =>
    match decEq e f with
    | isTrue h => isTrue (by rw [h])
    | isFalse h => isFalse fun hh => h (Except.error.inj hh)
  | .error _, .ok _ => isFalse fun hh => Except.noConfusion hh
  | .ok _, .error _ => isFalse fun hh => Except.noConfusion hh
  | .ok a, .ok b =>
    match decEq a b with
    | isTrue h => isTrue (by rw [h])
    | isFalse h => isFalse fun hh => h (Except.ok.inj hh)

/-- The status list of `BookingDB.is_room_occupied`: membership of a booking's
status in `{CHECKED_IN, CONFIRMED, PREBOOKED}`. -/
def activeBookingStatus (st : BookingStatus) : Bool :=
  st == .checked_in || st == .confirmed || st == .prebooked

/-- `BookingDB.is_room_occupied` (`app/models/bookings.py`): some booking on the room
is in `{checked_in, confirmed, prebooked}` and its `[scheduled_check_in,
scheduled_check_out)` interval overlaps the queried interval under the half-open
test `existing.check_in < new.check_out AND existing.check_out > new.check_in`. -/
def is_room_occupied (bookings : List Booking) (room_id : Nat)
    (check_in_date check_out_date : Int) : Bool :=
  bookings.any fun b =>
    b.room_id == room_id &&
    activeBookingStatus b.booking_status &&
    decide (b.scheduled_check_in < check_out_date) &&
    decide (b.scheduled_check_out > check_in_date)

/-- Database state visible to the booking endpoints: the ids of existing rooms and
customers and the rows of the `bookings` table. -/
structure DBState where
  rooms : List Nat
  customers : List Nat
  bookings : List Booking
deriving DecidableEq

/-- The row `create_booking` inserts: the request's fields, actual check-in/out
still null; the id models the autoincrement primary key. -/
def newBooking (s : DBState) (req : BookingCreate) : Booking :=
  { id := s.bookings.length + 1
    room_id := req.room_id
    customer_id := req.customer_id
    scheduled_check_in := req.scheduled_check_in
    scheduled_check_out := req.scheduled_check_out
    actual_check_in := none
    actual_check_out := none
    booking_status := req.booking_status
    payment_status := req.payment_status
    total_amount := req.total_amount
    amount_paid := req.amount_paid
    additional_charges := req.additional_charges
    notes := req.notes }

/-- `POST /create-booking` (`app/api/endpoints/bookings.py`): pydantic validation,
then reject when `is_room_occupied`, then 404 on missing room or customer, else
insert the new row and commit. -/
def create_booking (today : Int) (s : DBState) (req : BookingCreate) :
    Except HTTPError DBState :=
  match BookingCreate.validate today req with
  | .error e => .error ⟨422, e⟩
  | .ok req =>
    if is_room_occupied s.bookings req.room_id req.scheduled_check_in req.scheduled_check_out
    then .error ⟨400, "Room is not available for the selected dates"⟩
    else if !(s.rooms.contains req.room_id) then .error ⟨404, "Room not found"⟩
    else if !(s.customers.contains req.customer_id) then .error ⟨404, "Customer not found"⟩
    else .ok { s with bookings := s.bookings ++ [newBooking s req] }

/-- `session.query(BookingDB).filter(BookingDB.id == booking_id).first()`. -/
def find_booking (bookings : List Booking) (booking_id : Nat) : Option Booking :=
  bookings.find? fun b => b.id == booking_id

/-- Mutating the matched row and committing: every row with the queried id is
rewritten by `f`, the rest are untouched. -/
def update_booking (bookings : List Booking) (booking_id : Nat) (f : Booking → Booking) :
    List Booking :=
  bookings.map fun b => if b.id == booking_id then f b else b

/-- `PATCH /bookings/{id}/check-in` (`app/api/endpoints/bookings.py`): 404 when the
booking is missing; otherwise — with no check of the current status — set
`actual_check_in` to now and the status to `checked_in`, and commit. -/
def check_in (bookings : List Booking) (booking_id : Nat) (now : Int) :
    Except HTTPError (String × List Booking) :=
  match find_booking bookings booking_id with
  | none => .error ⟨404, "Booking not found"⟩
  | some _ =>
    .ok ("Check-in successful",
      update_booking bookings booking_id fun b =>
        { b with actual_check_in := some now, booking_status := .checked_in })

/-- `PATCH /bookings/{id}/check-out` (`app/api/endpoints/bookings.py`): 404 when the
booking is missing; otherwise — with no check of the current status — set
`actual_check_out` to now and the status to `checked_out`, commit, and return the
booking's `additional_charges`. -/
def check_out (bookings : List Booking) (booking_id : Nat) (now : Int) :
    Except HTTPError (String × Rat × List Booking) :=
  match find_booking bookings booking_id with
  | none => .error ⟨404, "Booking not found"⟩
  | some b =>
    .ok ("Check-out successful", b.additional_charges,
      update_booking bookings booking_id fun b =>
        { b with actual_check_out := some now, booking_status := .checked_out })

/-- `PATCH /bookings/{id}/cancel` (`app/api/endpoints/bookings.py`): 404 when the
booking is missing; otherwise the guard evaluates the list
`[BookingStatus.PENDING, BookingStatus.CONFIRMED]`.  `BookingStatus.PENDING` is an
attribute lookup of an undeclared member (`BookingStatus.member "PENDING" = none`),
raising `AttributeError`, which the endpoint's generic handler converts to a 500
response; only if the lookup succeeded would the status guard and the update run. -/
def cancel_booking (bookings : List Booking) (booking_id : Nat) :
    Except HTTPError (String × List Booking) :=
  match find_booking bookings booking_id with
  | none => .error ⟨404, "Booking not found"⟩
  | some b =>
    match BookingStatus.member "PENDING" with
    | none => .error ⟨500, "Failed to cancel booking"⟩
    | some pending =>
      if !(b.booking_status == pending || b.booking_status == .confirmed) then
        .error ⟨400, "Cannot cancel booking in current status"⟩
      else
        .ok ("Booking cancelled successfully",
          update_booking bookings booking_id fun b => { b with booking_status := .cancelled })

/-- Half-open interval overlap of two bookings' scheduled stays. -/
def overlaps (b1 b2 : Booking) : Bool :=
  decide (b1.scheduled_check_in < b2.scheduled_check_out) &&
  decide (b1.scheduled_check_out > b2.scheduled_check_in)

/-- No two distinct bookings on the same room with overlapping scheduled intervals
are both in an active status. -/
def NoDoubleBooking (bookings : List Booking) : Prop :=
  bookings.Pairwise fun b1 b2 =>
    b1.room_id = b2.room_id → overlaps b1 b2 = true →
      ¬(activeBookingStatus b1.booking_status = true ∧ activeBookingStatus b2.booking_status = true)

/-- States reachable via the create-booking endpoint alone: any room/customer
tables with an empty bookings table, plus any successful `create_booking` step. -/
inductive ReachableCreate : DBState → Prop where
  | init (rooms customers : List Nat) : ReachableCreate ⟨rooms, customers, []⟩
  | step (today : Int) (s s' : DBState) (req : BookingCreate) :
      ReachableCreate s → create_booking today s req = .ok s' → ReachableCreate s'

/-! ## File validation (`app/services/file_validator.py`) -/

/-- Splitting a character list at every occurrence of `sep` (the list-level core of
Python's `str.split` / the component decomposition used by `pathlib`). -/
def splitOnChar (sep : Char) : List Char → List (List Char)
  | [] => [[]]
  | c :: cs =>
    match splitOnChar sep cs with
    | [] => if c = sep then [[], [c]] else [[c]]
    | r :: rs => if c = sep then [] :: r :: rs else (c :: r) :: rs

/-- `pathlib.Path(filename).name` on POSIX: split on `/`, drop empty components and
single-dot components (which `PurePosixPath` normalizes away), and take the final
component, or the empty name when none remains. -/
def posixBasename (l : List Char) : List Char :=
  ((splitOnChar '/' l).filter fun t => decide (t ≠ [] ∧ t ≠ ['.'])).getLastD []

/-- The character class kept by `re.sub(r"[^\w\-.]", "_", ...)`: word characters
(`\w`, here its ASCII fragment: alphanumerics and underscore) plus dash and dot. -/
def keepChar (c : Char) : Bool :=
  c.isAlphanum || c == '_' || c == '-' || c == '.'

/-- `re.sub(r"[^\w\-.]", "_", s)`: every character outside the allowed class is
replaced by an underscore. -/
def sanitizeChars (l : List Char) : List Char :=
  l.map fun c => if keepChar c then c else '_'

/-- `FileValidator._extract_and_sanitize_filename`: reject the empty filename, take
the basename, reject an empty basename, substitute disallowed characters, reject an
empty result. -/
def extract_and_sanitize_filename (filename : String) : Except String String :=
  if filename = "" then .error "Filename is required"
  else
    let safe := posixBasename filename.data
    if safe = [] then .error "Invalid filename"
    else
      let safe := sanitizeChars safe
      if safe = [] then .error "Filename contains no valid characters"
      else .ok (String.mk safe)

/-- Python `str.lower()` on the ASCII range (the inputs reaching it here are drawn
from ASCII character classes). -/
def lowerChar (c : Char) : Char :=
  if 65 ≤ c.toNat ∧ c.toNat ≤ 90 then Char.ofNat (c.toNat + 32) else c

/-- `FileValidator._extract_extension`: require a dot, lower-case, take the text
after the last dot (`rsplit(".", 1)[-1]`), reject when empty or longer than 10. -/
def extract_extension (filename : String) : Except String String :=
  if !(filename.data.contains '.') then .error "Filename must include extension"
  else
    let extension := (splitOnChar '.' (filename.data.map lowerChar)).getLastD []
    if extension = [] || extension.length > 10 then .error "Invalid file extension"
    else .ok (String.mk extension)

/-- `FileValidator.ALLOWED_FILE_TYPES`, the extension → content-type table. -/
def ALLOWED_FILE_TYPES : List (String × String) :=
  [("pdf", "application/pdf"), ("jpg", "image/jpeg"), ("jpeg", "image/jpeg"),
   ("png", "image/png")]

/-- `FileValidator.ALLOWED_EXTENSIONS` (the table's keys). -/
def ALLOWED_EXTENSIONS : List String := ALLOWED_FILE_TYPES.map Prod.fst

/-- `FileValidator.ALLOWED_MIME_TYPES` (the table's values, as a membership set). -/
def ALLOWED_MIME_TYPES : List String := ALLOWED_FILE_TYPES.map Prod.snd

/-- `FileValidator.validate_file`, parameterized over the external libmagic call
`self.mime.from_buffer` (`sniff`) and the configured `max_file_size`.  Gates in
source order: size, sanitization, extension extraction, extension allow-list,
content sniffing (the detected MIME must belong to `ALLOWED_MIME_TYPES`); on
success returns the sanitized name, the extension, and the content type looked up
from the extension in `ALLOWED_FILE_TYPES` (the allow-list gate guarantees the key
is present, so the `getD` default is unreachable). -/
def validate_file (sniff : List UInt8 → String) (max_file_size : Nat)
    (filename : String) (content : List UInt8) : Except String (String × String × String) :=
  if content.length > max_file_size then
    .error ("File exceeds maximum size of " ++ toString max_file_size ++ " bytes")
  else
    match extract_and_sanitize_filename filename with
    | .error e => .error e
    | .ok safe_filename =>
      match extract_extension safe_filename with
      | .error e => .error e
      | .ok extension =>
        if !(ALLOWED_EXTENSIONS.contains extension) then
          .error ("File type not allowed. Supported: " ++ String.intercalate ", " ALLOWED_EXTENSIONS)
        else
          let file_mime_type := sniff content
          if !(ALLOWED_MIME_TYPES.contains file_mime_type) then
            .error ("File content does not match declared type. Got: " ++ file_mime_type)
          else
            .ok (safe_filename, extension, (ALLOWED_FILE_TYPES.lookup extension).getD "")

/-- Modelled from the spec: the external `magic` library's MIME detection
("magic-number detection" inspecting "the actual byte content"), restricted to the
signatures the repository's tests exercise: `%PDF`, PNG, JPEG, and the Windows
executable `MZ` header; anything else sniffs as plain text. -/
def magicSniff (content : List UInt8) : String :=
  if [0x25, 0x50, 0x44, 0x46].isPrefixOf content then "application/pdf"
  else if [0x89, 0x50, 0x4E, 0x47, 0x0D, 0x0A, 0x1A, 0x0A].isPrefixOf content then "image/png"
  else if [0xFF, 0xD8, 0xFF].isPrefixOf content then "image/jpeg"
  else if [0x4D, 0x5A].isPrefixOf content then "application/x-dosexec"
  else "text/plain"

/-! ## Customers and documents (`app/models/customer.py`, `app/api/endpoints/documents.py`,
`app/api/endpoints/customers.py`, `app/services/s3_service.py`) -/

/-- A row of the `customers` table (`CustomerDB` in `app/models/customer.py`). -/
structure Customer where
  id : Nat
  name : String
  email : String
  phone : String
  address : String
  proof_of_identity : String
  proof_image_url : Option String
  proof_image_filename : Option String
  uploaded_at : Int
deriving DecidableEq

/-- `session.query(CustomerDB).filter(CustomerDB.id == customer_id).first()`. -/
def find_customer (customers : List Customer) (customer_id : Nat) : Option Customer :=
  customers.find? fun c => c.id == customer_id

/-- Mutating the locked customer row and committing. -/
def update_customer (customers : List Customer) (customer_id : Nat) (f : Customer → Customer) :
    List Customer :=
  customers.map fun c => if c.id == customer_id then f c else c

/-- The `FileUploadResponse` schema. -/
structure FileUploadResponse where
  customer_id : Nat
  file_url : String
  file_name : String
  uploaded_at : Int
  document_type : String
deriving DecidableEq

/-- The `DocumentDeleteResponse` schema. -/
structure DocumentDeleteResponse where
  success : Bool
  message : String
  customer_id : Nat
deriving DecidableEq

/-- `POST /upload-document/{customer_id}` (`app/api/endpoints/documents.py`).
`s3_result` stands for the external `s3_service.upload_file` call: `.ok url` on
success, `.error ()` for a boto3 `ClientError`.  Order as in source: validate the
file (`ValueError` → 400), look up the customer under lock (missing → 404), upload
to S3 (`ClientError` → 503), then write `proof_image_url` and
`proof_image_filename` onto the row and commit.  Every error path returns the
unchanged table (the session context manager rolls back). -/
def upload_document (sniff : List UInt8 → String) (max_file_size : Nat)
    (customers : List Customer) (customer_id : Nat) (document_type : String)
    (filename : String) (content : List UInt8) (s3_result : Except Unit String) :
    Except HTTPError FileUploadResponse × List Customer :=
  match validate_file sniff max_file_size filename content with
  | .error e => (.error ⟨400, e⟩, customers)
  | .ok (safe_filename, _, _) =>
    match find_customer customers customer_id with
    | none =>
      (.error ⟨404, "Customer with ID " ++ toString customer_id ++ " not found"⟩, customers)
    | some customer =>
      match s3_result with
      | .error _ => (.error ⟨503, "File upload service temporarily unavailable"⟩, customers)
      | .ok s3_url =>
        (.ok { customer_id := customer_id, file_url := s3_url, file_name := safe_filename,
               uploaded_at := customer.uploaded_at, document_type := document_type },
         update_customer customers customer_id fun c =>
           { c with proof_image_url := some s3_url, proof_image_filename := some safe_filename })

/-- Left-to-right, non-overlapping replacement of every occurrence of `p` by `r`
(Python `str.replace`), driven by a character-count fuel so the recursion is
structural; each step consumes at least one character, so `l.length` fuel
suffices.  An empty pattern is treated as matching nowhere (the patterns used
here are never empty). -/
def replaceAllAux (p r : List Char) : Nat → List Char → List Char
  | 0, l => l
  | _ + 1, [] => []
  | fuel + 1, c :: cs =>
    if !p.isEmpty && p.isPrefixOf (c :: cs) then
      r ++ replaceAllAux p r fuel ((c :: cs).drop p.length)
    else c :: replaceAllAux p r fuel cs

/-- Python `s.replace(p, r)` on character lists. -/
def replaceAll (p r l : List Char) : List Char :=
  replaceAllAux p r l.length l

/-- `S3Service.get_s3_key_from_url`: strip one of the three recognized bucket URL
shapes (virtual-hosted, path-style with region, path-style without region), else
`ValueError`.  The first branch uses Python `str.replace`, which replaces every
occurrence of the bucket URL shape; the other two slice off the matched length. -/
def get_s3_key_from_url (bucket region : String) (s3_url : String) : Except String String :=
  let vhost := "https://" ++ bucket ++ ".s3." ++ region ++ ".amazonaws.com/"
  if vhost.data.isPrefixOf s3_url.data then
    .ok (String.mk (replaceAll vhost.data [] s3_url.data))
  else
    let pathStyle := "https://s3." ++ region ++ ".amazonaws.com/" ++ bucket ++ "/"
    if pathStyle.data.isPrefixOf s3_url.data then
      .ok (String.mk (s3_url.data.drop pathStyle.data.length))
    else
      let globalStyle := "https://s3.amazonaws.com/" ++ bucket ++ "/"
      if globalStyle.data.isPrefixOf s3_url.data then
        .ok (String.mk (s3_url.data.drop globalStyle.data.length))
      else .error ("URL not from expected bucket: " ++ s3_url)

/-- `DELETE /documents/{customer_id}` (`app/api/endpoints/documents.py`).
`s3_delete` stands for the external `s3_service.delete_file` call: `.ok ()` on
success, `.error ()` for a boto3 `ClientError`.  Order as in source: look up the
customer under lock (missing → 404), 404 when no locator is stored, extract the S3
key from the stored URL (`ValueError` → 500), delete the object from S3
(`ClientError` → 503), and only then clear `proof_image_url` and
`proof_image_filename` and commit.  Every error path returns the unchanged table. -/
def delete_document (bucket region : String) (s3_delete : String → Except Unit Unit)
    (customers : List Customer) (customer_id : Nat) :
    Except HTTPError DocumentDeleteResponse × List Customer :=
  match find_customer customers customer_id with
  | none =>
    (.error ⟨404, "Customer with ID " ++ toString customer_id ++ " not found"⟩, customers)
  | some customer =>
    match customer.proof_image_url with
    | none => (.error ⟨404, "No document found for customer " ++ toString customer_id⟩, customers)
    | some url =>
      match get_s3_key_from_url bucket region url with
      | .error _ => (.error ⟨500, "Invalid stored document URL"⟩, customers)
      | .ok s3_key =>
        match s3_delete s3_key with
        | .error _ =>
          (.error ⟨503, "File deletion service temporarily unavailable"⟩, customers)
        | .ok _ =>
          (.ok { success := true, message := "Document deleted successfully",
                 customer_id := customer_id },
           update_customer customers customer_id fun c =>
             { c with proof_image_url := none, proof_image_filename := none })

/-! ## Authentication (`app/crud/crud_user.py`, `app/api/endpoints/auth.py`) -/

/-- A row of the `users` table (`UserDB` in `app/models/users.py`). -/
structure User where
  id : Nat
  username : String
  hashed_password : String
  is_active : Bool
deriving DecidableEq

/-- `CRUDUser.get_by_username`. -/
def get_by_username (users : List User) (username : String) : Option User :=
  users.find? fun u => u.username == username

/-- `CRUDUser.authenticate`, parameterized over the external bcrypt check
`verify_password(plain_password, hashed_password)`: return `none` when the
username is unknown, `none` when the password does not verify, and the user
otherwise. -/
def authenticate (verify_password : String → String → Bool) (users : List User)
    (username password : String) : Option User :=
  match get_by_username users username with
  | none => none
  | some user =>
    if !(verify_password password user.hashed_password) then none
    else some user

/-- `POST /login` (`app/api/endpoints/auth.py`): look the user up by username,
verify the password, and on success issue an access token for the username (the
external JWT encoding is modelled by tagging the subject) together with the user's
id and username; unknown username or failed verification → 401. -/
def login (verify_password : String → String → Bool) (users : List User)
    (username password : String) : Except HTTPError (String × Nat × String) :=
  match get_by_username users username with
  | none => .error ⟨401, "Invalid credentials"⟩
  | some user =>
    if !(verify_password password user.hashed_password) then
      .error ⟨401, "Invalid credentials"⟩
    else
      .ok ("access_token:" ++ user.username, user.id, user.username)

/-! ## Customer creation (`app/models/customer.py`, `app/api/endpoints/customers.py`) -/

/-- The character class `[a-zA-Z0-9._%+-]` of the email regex's local part. -/
def emailLocalChar (c : Char) : Bool :=
  c.isAlpha || c.isDigit || c == '.' || c == '_' || c == '%' || c == '+' || c == '-'

/-- The character class `[a-zA-Z0-9.-]` of the email regex's domain part. -/
def emailDomainChar (c : Char) : Bool :=
  c.isAlpha || c.isDigit || c == '.' || c == '-'

/-- Matching `[a-zA-Z0-9.-]+\.[a-zA-Z]{2,}$` against the text after the `@`:
some dot splits it into a nonempty prefix of domain characters (tracked by
`seen`) and an all-alphabetic suffix of length at least two. -/
def emailDomainMatches (seen : Bool) : List Char → Bool
  | [] => false
  | c :: rest =>
    (seen && c == '.' && decide (2 ≤ rest.length) && rest.all Char.isAlpha) ||
    (emailDomainChar c && emailDomainMatches true rest)

/-- The anchored regex `^[a-zA-Z0-9._%+-]+@[a-zA-Z0-9.-]+\.[a-zA-Z]{2,}$` of
`CustomerCreate.email_validator`: since neither class contains `@`, a match is a
unique split at `@` with a nonempty local part in its class and a matching
domain. -/
def emailRegexMatches (s : List Char) : Bool :=
  match splitOnChar '@' s with
  | [local_part, domain] =>
    !(local_part.isEmpty) && local_part.all emailLocalChar && emailDomainMatches false domain
  | _ => false

/-- `CustomerCreate.email_validator`: reject on regex mismatch, else normalize the
email to lowercase (`v.lower()`). -/
def email_validator (v : String) : Except String String :=
  if !(emailRegexMatches v.data) then .error "Invalid email format"
  else .ok (String.mk (v.data.map lowerChar))

/-- `CustomerCreate.phone_validator`: strip the formatting characters
`[\s\-\(\)\.]`, then require an all-digit result of length at least 10. -/
def phone_validator (v : String) : Except String String :=
  let cleaned := v.data.filter fun c => !(c.isWhitespace || c == '-' || c == '(' || c == ')' || c == '.')
  if !(cleaned.all Char.isDigit) || cleaned.length < 10 then
    .error "Phone must contain at least 10 digits"
  else .ok (String.mk cleaned)

/-- Python `str.strip()`: remove leading and trailing whitespace. -/
def stripChars (l : List Char) : List Char :=
  ((l.dropWhile Char.isWhitespace).reverse.dropWhile Char.isWhitespace).reverse

/-- `CustomerCreate.name_validator`: the stripped name must have at least two
characters; the stripped form is stored. -/
def name_validator (v : String) : Except String String :=
  if (stripChars v.data).length < 2 then .error "Name must be at least 2 characters"
  else .ok (String.mk (stripChars v.data))

/-- The request body `CustomerCreate` (`app/models/customer.py`). -/
structure CustomerCreate where
  name : String
  email : String
  phone : String
  address : String
  proof_of_identity : String
deriving DecidableEq

/-- `CustomerCreate`'s pydantic validation, field validators in field-declaration
order (`name`, `email`, `phone`). -/
def CustomerCreate.validate (c : CustomerCreate) : Except String CustomerCreate :=
  match name_validator c.name with
  | .error e => .error e
  | .ok name =>
    match email_validator c.email with
    | .error e => .error e
    | .ok email =>
      match phone_validator c.phone with
      | .error e => .error e
      | .ok phone => .ok { c with name := name, email := email, phone := phone }

/-- `POST /create-customer` (`app/api/endpoints/customers.py`): pydantic validation
(→ 422), then reject when a stored customer already has exactly the validated
(lowercased) email, else insert the new row and commit. -/
def create_customer (customers : List Customer) (req : CustomerCreate) :
    Except HTTPError (List Customer) :=
  match CustomerCreate.validate req with
  | .error e => .error ⟨422, e⟩
  | .ok req =>
    if customers.any fun c => c.email == req.email then
      .error ⟨400, "Email already registered"⟩
    else
      .ok (customers ++ [{ id := customers.length + 1, name := req.name, email := req.email,
                           phone := req.phone, address := req.address,
                           proof_of_identity := req.proof_of_identity,
                           proof_image_url := none, proof_image_filename := none,
                           uploaded_at := 0 }])

/-- Customer tables reachable via the create-customer endpoint alone. -/
inductive ReachableCustomers : List Customer → Prop where
  | init : ReachableCustomers []
  | step (s s' : List Customer) (req : CustomerCreate) :
      ReachableCustomers s → create_customer s req = .ok s' → ReachableCustomers s'

/-- An uppercase ASCII letter. -/
def isUpperAZ (c : Char) : Bool :=
  decide (65 ≤ c.toNat ∧ c.toNat ≤ 90)

/-- A string free of uppercase ASCII letters. -/
def noUpper (s : String) : Prop :=
  ∀ c ∈ s.data, isUpperAZ c = false

/-- Fixture: a booking that has already checked out. -/
def bkCheckedOut : Booking :=
  { id := 1, room_id := 1, customer_id := 1, scheduled_check_in := 0,
    scheduled_check_out := 2, actual_check_in := some 0, actual_check_out := some 2,
    booking_status := .checked_out, payment_status := .paid, total_amount := 100,
    amount_paid := 100, additional_charges := 0, notes := none }

/-- Fixture: a freshly created prebooked booking. -/
def bkPrebooked : Booking :=
  { id := 1, room_id := 1, customer_id := 1, scheduled_check_in := 0,
    scheduled_check_out := 2, actual_check_in := none, actual_check_out := none,
    booking_status := .prebooked, payment_status := .pending, total_amount := 100,
    amount_paid := 0, additional_charges := 25, notes := none }

/-- Fixture: a well-formed create-booking request for room 1, customer 1, days 1–2. -/
def reqPrebooked : BookingCreate :=
  { room_id := 1, customer_id := 1, scheduled_check_in := 1, scheduled_check_out := 2,
    payment_status := .pending, booking_status := .prebooked, total_amount := 100,
    amount_paid := 0, additional_charges := 0, notes := none }

/-- Fixture: the `%PDF` magic bytes. -/
def pdfBytes : List UInt8 := [0x25, 0x50, 0x44, 0x46]

/-- Fixture: the PNG signature bytes. -/
def pngBytes : List UInt8 := [0x89, 0x50, 0x4E, 0x47, 0x0D, 0x0A, 0x1A, 0x0A]

/-- Fixture: the JPEG/JFIF magic bytes. -/
def jpgBytes : List UInt8 := [0xFF, 0xD8, 0xFF, 0xE0]

/-- Fixture: a customer holding a stored document locator. -/
def custWithDoc : Customer :=
  { id := 1, name := "Jane Doe", email := "jane@example.com", phone := "5551234567",
    address := "1 Main St", proof_of_identity := "Passport",
    proof_image_url :=
      some "https://bkt.s3.us-east-1.amazonaws.com/customer_proofs/1/100_passport.pdf",
    proof_image_filename := some "passport.pdf", uploaded_at := 100 }

/-- Fixture: a customer with no stored document. -/
def custNoDoc : Customer :=
  { custWithDoc with id := 2, email := "john@example.com", proof_image_url := none,
                     proof_image_filename := none }

/-- Fixture: a deactivated user holding a stored hash. -/
def userInactive : User :=
  { id := 7, username := "bob", hashed_password := "bcrypt-hash-of-pw", is_active := false }

/-- Fixture: a verifier standing for bcrypt at the one credential pair it is used
on — it accepts exactly the password whose hash is stored for `userInactive`. -/
def verifyStub (plain hashed : String) : Bool :=
  plain == "pw" && hashed == "bcrypt-hash-of-pw"

/-- Fixture: a create-customer request with a mixed-case email. -/
def reqJane : CustomerCreate :=
  { name := "Jane Doe", email := "Jane@Example.COM", phone := "5551234567",
    address := "1 Main St", proof_of_identity := "Passport" }

/-- Fixture: the same email with different letter case. -/
def reqJane2 : CustomerCreate :=
  { reqJane with email := "JANE@example.com" }

/-- Fixture: the row storing `reqJane` after validation normalized its email. -/
def custJaneStored : Customer :=
  { id := 1, name := "Jane Doe", email := "jane@example.com", phone := "5551234567",
    address := "1 Main St", proof_of_identity := "Passport", proof_image_url := none,
    proof_image_filename := none, uploaded_at := 0 }

/- ———————————————————————————— theorems ———————————————————————————— -/

theorem validate_ok_eq {today : Int} {b b' : BookingCreate}
    (h : BookingCreate.validate today b = .ok b') : b' = b := by
  unfold BookingCreate.validate at h
  split_ifs at h
  all_goals simp_all

/-- C1: in every state reachable via create-booking, no two bookings on the same
room with overlapping half-open scheduled intervals are both in
{prebooked, confirmed, checked_in}; the create-booking operation rejects any
request whose interval overlaps an existing booking in one of those statuses on
the same room. -/
theorem create_booking_no_double_booking :
    (∀ (today : Int) (s : DBState) (req : BookingCreate),
      is_room_occupied s.bookings req.room_id req.scheduled_check_in
        req.scheduled_check_out = true →
      ∀ s', create_booking today s req ≠ .ok s') ∧
    (∀ s, ReachableCreate s → NoDoubleBooking s.bookings) := by
  constructor
  · intro today s req hocc s' hok
    cases hval : BookingCreate.validate today req with
    | error e => simp [create_booking, hval] at hok
    | ok req' =>
      obtain rfl := validate_ok_eq hval
      simp only [create_booking, hval] at hok
      rw [hocc] at hok
      simp at hok
  · intro s h
    induction h with
    | init rooms customers =>
      simp [NoDoubleBooking]
    | step today s s' req hs hok ih =>
      cases hval : BookingCreate.validate today req with
      | error e => simp [create_booking, hval] at hok
      | ok req' =>
        obtain rfl := validate_ok_eq hval
        simp only [create_booking, hval] at hok
        split_ifs at hok with h1 h2 h3
        rw [Except.ok.injEq] at hok
        subst hok
        show NoDoubleBooking (s.bookings ++ [newBooking s req'])
        refine List.pairwise_append.2 ⟨ih, List.pairwise_singleton _ _, ?_⟩
        intro a ha b hb
        simp only [List.mem_singleton] at hb
        subst hb
        intro hroom hover hact
        obtain ⟨hact1, hact2⟩ := hact
        rw [is_room_occupied] at h1
        rw [List.any_eq_true] at h1
        refine h1 ⟨a, ha, ?_⟩
        simp only [Bool.and_eq_true, beq_iff_eq, decide_eq_true_eq]
        rw [overlaps] at hover
        simp only [Bool.and_eq_true, decide_eq_true_eq] at hover
        exact ⟨⟨⟨hroom, hact1⟩, hover.1⟩, hover.2⟩

/-- Witness for C1: a concrete overlapping request is rejected and a concrete
state reached by one successful create satisfies the invariant. -/
theorem create_booking_no_double_booking_witness :
    (create_booking 0 ⟨[1], [1], [bkPrebooked]⟩ reqPrebooked ≠
      .ok ⟨[1], [1], [bkPrebooked, newBooking ⟨[1], [1], [bkPrebooked]⟩ reqPrebooked]⟩) ∧
    NoDoubleBooking
      ({ rooms := [1], customers := [1],
         bookings := [newBooking ⟨[1], [1], []⟩ reqPrebooked] } : DBState).bookings :=
  ⟨create_booking_no_double_booking.1 0 ⟨[1], [1], [bkPrebooked]⟩ reqPrebooked (by decide) _,
   create_booking_no_double_booking.2 _
     (ReachableCreate.step 0 ⟨[1], [1], []⟩ _ reqPrebooked
        (ReachableCreate.init [1] [1]) rfl)⟩

/-- C2 counterexample: the check-in endpoint succeeds on a booking whose status is
`checked_out` — not in {prebooked, confirmed} — setting `actual_check_in` and the
status anyway, so "succeeds if and only if the status is in {prebooked, confirmed}"
is false on the code. -/
theorem check_in_succeeds_from_checked_out :
    (bkCheckedOut.booking_status = BookingStatus.prebooked ∨
      bkCheckedOut.booking_status = BookingStatus.confirmed → False) ∧
    check_in [bkCheckedOut] 1 5 =
      .ok ("Check-in successful",
        [{ bkCheckedOut with actual_check_in := some 5, booking_status := .checked_in }]) := by
  constructor
  · decide
  · rfl

/-- C2 (amended): the check-in endpoint performs no status check at all — for
every existing booking, whatever its current status, it succeeds, setting
`actual_check_in` to the current time and the status to `checked_in` (rewriting
exactly the rows with the requested id); a missing booking id yields 404. -/
theorem check_in_unconditional (bookings : List Booking) (booking_id : Nat) (now : Int) :
    (∀ b, find_booking bookings booking_id = some b →
      check_in bookings booking_id now =
        .ok ("Check-in successful",
          update_booking bookings booking_id fun b =>
            { b with actual_check_in := some now, booking_status := .checked_in })) ∧
    (find_booking bookings booking_id = none →
      check_in bookings booking_id now = .error ⟨404, "Booking not found"⟩) := by
  constructor
  · intro b hb
    unfold check_in
    rw [hb]
  · intro hnone
    unfold check_in
    rw [hnone]

/-- Witness for C2: the amended theorem applied to a concrete prebooked booking. -/
theorem check_in_unconditional_witness :
    check_in [bkPrebooked] 1 5 =
      .ok ("Check-in successful",
        update_booking [bkPrebooked] 1 fun b =>
          { b with actual_check_in := some (5 : Int), booking_status := .checked_in }) :=
  (check_in_unconditional [bkPrebooked] 1 5).1 bkPrebooked rfl

/-- C3 counterexample: the check-out endpoint succeeds on a booking whose status is
`prebooked` — not `checked_in` — so "succeeds if and only if the status is
checked_in" is false on the code (the spec's own scenario expects a 400 here). -/
theorem check_out_succeeds_from_prebooked :
    (bkPrebooked.booking_status = BookingStatus.checked_in → False) ∧
    check_out [bkPrebooked] 1 5 =
      .ok ("Check-out successful", bkPrebooked.additional_charges,
        [{ bkPrebooked with actual_check_out := some 5, booking_status := .checked_out }]) := by
  constructor
  · decide
  · rfl

/-- C3 (amended): the check-out endpoint performs no status check at all — for
every existing booking, whatever its current status, it succeeds, setting
`actual_check_out` to the current time and the status to `checked_out` and
returning the booking's current `additional_charges`; a missing booking id yields
404. -/
theorem check_out_unconditional (bookings : List Booking) (booking_id : Nat) (now : Int) :
    (∀ b, find_booking bookings booking_id = some b →
      check_out bookings booking_id now =
        .ok ("Check-out successful", b.additional_charges,
          update_booking bookings booking_id fun b =>
            { b with actual_check_out := some now, booking_status := .checked_out })) ∧
    (find_booking bookings booking_id = none →
      check_out bookings booking_id now = .error ⟨404, "Booking not found"⟩) := by
  constructor
  · intro b hb
    unfold check_out
    rw [hb]
  · intro hnone
    unfold check_out
    rw [hnone]

/-- Witness for C3: the amended theorem applied to a concrete checked-out booking. -/
theorem check_out_unconditional_witness :
    check_out [bkCheckedOut] 1 7 =
      .ok ("Check-out successful", bkCheckedOut.additional_charges,
        update_booking [bkCheckedOut] 1 fun b =>
          { b with actual_check_out := some (7 : Int), booking_status := .checked_out }) :=
  (check_out_unconditional [bkCheckedOut] 1 7).1 bkCheckedOut rfl

/-- C4: the cancel endpoint's status guard evaluates `BookingStatus.PENDING`, an
attribute lookup of a member `enums.py` never declares, so for every existing
booking — in particular a prebooked one the claim (and the spec's intended guard
{prebooked, confirmed}) says must be cancellable — the endpoint raises
`AttributeError` and answers 500 "Failed to cancel booking", leaving the booking
unchanged and never reaching the cancel update. -/
theorem cancel_booking_always_500 (bookings : List Booking) (booking_id : Nat)
    (b : Booking) (h : find_booking bookings booking_id = some b) :
    cancel_booking bookings booking_id = .error ⟨500, "Failed to cancel booking"⟩ := by
  unfold cancel_booking
  rw [h]
  rfl

/-- Witness for C4: cancelling a concrete prebooked booking answers 500. -/
theorem cancel_booking_always_500_witness :
    cancel_booking [bkPrebooked] 1 = .error ⟨500, "Failed to cancel booking"⟩ :=
  cancel_booking_always_500 [bkPrebooked] 1 bkPrebooked rfl

/-- C5: when the file validated and the customer was found but the object-store
upload step fails (boto3 `ClientError`), the upload endpoint answers 503
(storage unavailable) and the customers table is returned exactly as it was —
in particular every row's `proof_image_url`, `proof_image_filename` and
`uploaded_at` are unchanged, so no filename or timestamp is recorded without a
valid locator. -/
theorem upload_document_s3_failure_no_partial_state
    (sniff : List UInt8 → String) (max_file_size : Nat) (customers : List Customer)
    (customer_id : Nat) (document_type filename : String) (content : List UInt8)
    (v : String × String × String) (c : Customer)
    (hval : validate_file sniff max_file_size filename content = .ok v)
    (hfind : find_customer customers customer_id = some c) :
    upload_document sniff max_file_size customers customer_id document_type filename content
        (.error ()) =
      (.error ⟨503, "File upload service temporarily unavailable"⟩, customers) := by
  obtain ⟨sf, ext, ct⟩ := v
  unfold upload_document
  rw [hval, hfind]

/-- Witness for C5: a concrete failing upload of a valid PDF for a present
customer answers 503 and leaves the table untouched. -/
theorem upload_document_s3_failure_no_partial_state_witness :
    upload_document magicSniff 100 [custWithDoc] 1 "passport" "doc.pdf" pdfBytes (.error ()) =
      (.error ⟨503, "File upload service temporarily unavailable"⟩, [custWithDoc]) :=
  upload_document_s3_failure_no_partial_state magicSniff 100 [custWithDoc] 1 "passport"
    "doc.pdf" pdfBytes ("doc.pdf", "pdf", "application/pdf") custWithDoc (by decide) (by decide)

/-- C6 counterexample: for a customer with a stored locator, a failing
object-store delete makes the delete endpoint answer 503 — the request fails and
the locator fields are NOT cleared — refuting "clear and commit first, then
best-effort delete whose failure never fails the request". -/
theorem delete_document_s3_failure_fails_request :
    delete_document "bkt" "us-east-1" (fun _ => .error ()) [custWithDoc] 1 =
      (.error ⟨503, "File deletion service temporarily unavailable"⟩, [custWithDoc]) ∧
    custWithDoc.proof_image_url ≠ none := by
  constructor
  · decide
  · decide

/-- C6 (amended): for a customer with a stored locator, the delete endpoint first
extracts the storage key from the locator and deletes the object from the store,
and only on store success clears the locator fields and commits; a store delete
failure aborts the whole request with 503 and leaves the row unchanged (the
delete is not best-effort); a customer with no locator gets 404 with the row
unchanged. -/
theorem delete_document_deletes_before_clearing (bucket region : String)
    (s3_delete : String → Except Unit Unit) (customers : List Customer)
    (customer_id : Nat) :
    (∀ c url s3_key, find_customer customers customer_id = some c →
      c.proof_image_url = some url →
      get_s3_key_from_url bucket region url = .ok s3_key →
      delete_document bucket region s3_delete customers customer_id =
        match s3_delete s3_key with
        | .error _ =>
          (.error ⟨503, "File deletion service temporarily unavailable"⟩, customers)
        | .ok _ =>
          (.ok { success := true, message := "Document deleted successfully",
                 customer_id := customer_id },
           update_customer customers customer_id fun c =>
             { c with proof_image_url := none, proof_image_filename := none })) ∧
    (∀ c, find_customer customers customer_id = some c → c.proof_image_url = none →
      delete_document bucket region s3_delete customers customer_id =
        (.error ⟨404, "No document found for customer " ++ toString customer_id⟩,
         customers)) := by
  constructor
  · intro c url s3_key hfind hurl hkey
    simp only [delete_document, hfind, hurl, hkey]
  · intro c hfind hurl
    simp only [delete_document, hfind, hurl]

/-- Witness for C6: the amended theorem at a concrete customer whose store delete
succeeds, and at a concrete customer without a document. -/
theorem delete_document_deletes_before_clearing_witness :
    (delete_document "bkt" "us-east-1" (fun _ => .ok ()) [custWithDoc] 1 =
      (.ok { success := true, message := "Document deleted successfully", customer_id := 1 },
       update_customer [custWithDoc] 1 fun c =>
         { c with proof_image_url := none, proof_image_filename := none })) ∧
    (delete_document "bkt" "us-east-1" (fun _ => .ok ()) [custNoDoc] 2 =
      (.error ⟨404, "No document found for customer " ++ toString (2 : Nat)⟩, [custNoDoc])) :=
  ⟨(delete_document_deletes_before_clearing "bkt" "us-east-1" (fun _ => .ok ())
      [custWithDoc] 1).1 custWithDoc
      "https://bkt.s3.us-east-1.amazonaws.com/customer_proofs/1/100_passport.pdf"
      "customer_proofs/1/100_passport.pdf" (by decide) (by decide) (by decide),
   (delete_document_deletes_before_clearing "bkt" "us-east-1" (fun _ => .ok ())
      [custNoDoc] 2).2 custNoDoc (by decide) (by decide)⟩

/-- C7 counterexample: PNG bytes under a `.pdf` name — the sniffed type
`image/png` differs from the extension's `application/pdf`, yet validation
accepts the file and returns the extension-mapped content type, refuting "any
mismatch between the declared extension and the sniffed content type is
rejected". -/
theorem validate_file_accepts_png_as_pdf :
    magicSniff pngBytes = "image/png" ∧
    magicSniff pngBytes ≠ "application/pdf" ∧
    validate_file magicSniff 10485760 "doc.pdf" pngBytes =
      .ok ("doc.pdf", "pdf", "application/pdf") := by
  refine ⟨by decide, by decide, by decide⟩

/-- C7 (amended): after the size, sanitization, extension and allow-list gates,
content sniffing checks only that the detected MIME type belongs to
{application/pdf, image/jpeg, image/png}: a detected type outside the set is
rejected with the detected type named in the message, while any detected type in
the set is accepted even when it differs from the extension's type, and the
returned content type is the one mapped from the extension. -/
theorem validate_file_sniff_allowlist_only (sniff : List UInt8 → String)
    (max_file_size : Nat) (filename : String) (content : List UInt8) (sf ext : String)
    (hsize : content.length ≤ max_file_size)
    (hsan : extract_and_sanitize_filename filename = .ok sf)
    (hext : extract_extension sf = .ok ext)
    (hallow : ALLOWED_EXTENSIONS.contains ext = true) :
    (ALLOWED_MIME_TYPES.contains (sniff content) = true →
      validate_file sniff max_file_size filename content =
        .ok (sf, ext, (ALLOWED_FILE_TYPES.lookup ext).getD "")) ∧
    (ALLOWED_MIME_TYPES.contains (sniff content) = false →
      validate_file sniff max_file_size filename content =
        .error ("File content does not match declared type. Got: " ++ sniff content)) := by
  have hs : ¬ content.length > max_file_size := by omega
  have hallow2 : ext ∈ ALLOWED_EXTENSIONS := by simpa using hallow
  constructor
  · intro hmime
    have hmime2 : sniff content ∈ ALLOWED_MIME_TYPES := by simpa using hmime
    simp [validate_file, hs, hsan, hext, hallow2, hmime2]
  · intro hmime
    have hmime2 : sniff content ∉ ALLOWED_MIME_TYPES := by simpa using hmime
    simp [validate_file, hs, hsan, hext, hallow2, hmime2]

/-- Witness for C7: a concrete JPEG upload under a `.jpg` name is accepted with
the extension-mapped content type. -/
theorem validate_file_sniff_allowlist_only_witness :
    validate_file magicSniff 100 "photo.jpg" jpgBytes =
      .ok ("photo.jpg", "jpg", (ALLOWED_FILE_TYPES.lookup "jpg").getD "") :=
  (validate_file_sniff_allowlist_only magicSniff 100 "photo.jpg" jpgBytes "photo.jpg" "jpg"
      (by decide) (by decide) (by decide) (by decide)).1 (by decide)

theorem data_mk (l : List Char) : (String.mk l).data = l := rfl

theorem splitOnChar_not_mem (sep : Char) (l : List Char) (h : sep ∉ l) :
    splitOnChar sep l = [l] := by
  induction l with
  | nil => rfl
  | cons c cs ih =>
    have hc : ¬(c = sep) := fun e => h (e ▸ List.mem_cons_self c cs)
    have hcs : sep ∉ cs := fun hm => h (List.mem_cons_of_mem _ hm)
    unfold splitOnChar
    rw [ih hcs]
    simp [hc]

theorem getLastD_filter {α : Type} (p : α → Bool) (l : List α) (d : α)
    (h : l.filter p ≠ []) : p ((l.filter p).getLastD d) = true := by
  have h2 : (l.filter p).getLastD d = (l.filter p).getLast h := by
    rw [List.getLastD_eq_getLast?, List.getLast?_eq_getLast _ h]
    rfl
  rw [h2]
  exact List.of_mem_filter (List.getLast_mem h)

theorem posixBasename_ne_dot (l : List Char) (h : posixBasename l ≠ []) :
    posixBasename l ≠ ['.'] := by
  unfold posixBasename at h ⊢
  by_cases hF : (splitOnChar '/' l).filter (fun t => decide (t ≠ [] ∧ t ≠ ['.'])) = []
  · rw [hF] at h
    exact absurd rfl h
  · have hp := getLastD_filter (fun t => decide (t ≠ [] ∧ t ≠ ['.'])) (splitOnChar '/' l) [] hF
    simp only [decide_eq_true_eq] at hp
    exact hp.2

theorem posixBasename_eq_self (m : List Char) (hslash : '/' ∉ m) (hne : m ≠ [])
    (hdot : m ≠ ['.']) : posixBasename m = m := by
  unfold posixBasename
  rw [splitOnChar_not_mem '/' m hslash]
  simp [List.filter, hne, hdot]

theorem mem_sanitizeChars {c : Char} {l : List Char} (h : c ∈ sanitizeChars l) :
    keepChar c = true := by
  unfold sanitizeChars at h
  obtain ⟨a, _, ha⟩ := List.mem_map.1 h
  by_cases hk : keepChar a = true
  · rw [if_pos hk] at ha
    rwa [← ha]
  · rw [if_neg hk] at ha
    rw [← ha]
    decide

theorem slash_not_mem_sanitizeChars (l : List Char) : '/' ∉ sanitizeChars l :=
  fun h => absurd (mem_sanitizeChars h) (by decide)

theorem sanitizeChars_idem (l : List Char) :
    sanitizeChars (sanitizeChars l) = sanitizeChars l := by
  unfold sanitizeChars
  rw [List.map_map]
  apply List.map_congr_left
  intro a _
  by_cases hk : keepChar a = true
  · simp [Function.comp, hk]
  · simp [Function.comp, hk]

theorem sanitizeChars_eq_dot {l : List Char} (h : sanitizeChars l = ['.']) : l = ['.'] := by
  unfold sanitizeChars at h
  cases l with
  | nil => simp at h
  | cons c cs =>
    cases cs with
    | nil =>
      simp only [List.map_cons, List.map_nil] at h
      by_cases hk : keepChar c = true
      · rw [if_pos hk] at h
        simpa using h
      · rw [if_neg hk] at h
        simp at h
    | cons d ds => simp at h

/-- C8: filename sanitization (basename, then replacement of every character
outside the allowed class by underscore) is idempotent — re-sanitizing any
successful output returns it unchanged — and sanitizing
`"../../etc/passwd.pdf"` yields `"passwd.pdf"`. -/
theorem sanitize_filename_idempotent :
    (∀ filename y, extract_and_sanitize_filename filename = .ok y →
      extract_and_sanitize_filename y = .ok y) ∧
    extract_and_sanitize_filename "../../etc/passwd.pdf" = .ok "passwd.pdf" := by
  constructor
  · intro filename y h
    simp only [extract_and_sanitize_filename] at h
    split_ifs at h with h1 h2 h3
    rw [Except.ok.injEq] at h
    subst h
    have hne : sanitizeChars (posixBasename filename.data) ≠ [] := h3
    have hdot : sanitizeChars (posixBasename filename.data) ≠ ['.'] :=
      fun e => absurd (sanitizeChars_eq_dot e) (posixBasename_ne_dot filename.data h2)
    have hslash : '/' ∉ sanitizeChars (posixBasename filename.data) :=
      slash_not_mem_sanitizeChars _
    have hmk : String.mk (sanitizeChars (posixBasename filename.data)) ≠ "" :=
      fun e => hne (congrArg String.data e)
    simp only [extract_and_sanitize_filename, data_mk]
    rw [posixBasename_eq_self _ hslash hne hdot]
    rw [sanitizeChars_idem]
    simp [hmk, hne]
  · decide

/-- Witness for C8: re-sanitizing the sanitized form of `"a/b c.pdf"` returns it
unchanged. -/
theorem sanitize_filename_idempotent_witness :
    extract_and_sanitize_filename "b_c.pdf" = .ok "b_c.pdf" :=
  sanitize_filename_idempotent.1 "a/b c.pdf" "b_c.pdf" (by decide)

/-- C9 counterexample: an inactive user whose password verifies is returned by
authenticate, and login issues a token for them — refuting "returns a user only
if found, verified, and active" and "login never issues a token to an inactive
user". -/
theorem authenticate_returns_inactive_user :
    userInactive.is_active = false ∧
    authenticate verifyStub [userInactive] "bob" "pw" = some userInactive ∧
    login verifyStub [userInactive] "bob" "pw" = .ok ("access_token:bob", 7, "bob") := by
  refine ⟨rfl, by decide, by decide⟩

/-- C9 (amended): authenticate returns a user if and only if a user with that
username exists and the password verifies against the stored hash — the active
flag is never consulted — and for any such user login issues an access token;
the active flag is enforced only at token resolution (`get_current_user`), not at
login. -/
theorem authenticate_ignores_active_flag (verify_password : String → String → Bool)
    (users : List User) (username password : String) (u : User) :
    (authenticate verify_password users username password = some u ↔
      get_by_username users username = some u ∧
        verify_password password u.hashed_password = true) ∧
    (get_by_username users username = some u →
      verify_password password u.hashed_password = true →
      login verify_password users username password =
        .ok ("access_token:" ++ u.username, u.id, u.username)) := by
  constructor
  · unfold authenticate
    cases hf : get_by_username users username with
    | none => simp
    | some w =>
      by_cases hv : verify_password password w.hashed_password = true
      · simp only [hv, Bool.not_true, Bool.false_eq_true, if_false, Option.some.injEq]
        constructor
        · intro h
          subst h
          exact ⟨rfl, hv⟩
        · intro h
          obtain rfl := h.1
          rfl
      · rw [Bool.not_eq_true] at hv
        simp only [hv, Bool.not_false, if_true, Option.some.injEq]
        constructor
        · intro h
          exact absurd h (by simp)
        · intro h
          obtain rfl := h.1
          rw [h.2] at hv
          exact absurd hv (by simp)
  · intro hf hv
    simp [login, hf, hv]

/-- Witness for C9: the amended theorem at the concrete inactive user — found and
verified, so authenticate returns them and login issues their token. -/
theorem authenticate_ignores_active_flag_witness :
    (authenticate verifyStub [userInactive] "bob" "pw" = some userInactive) ∧
    login verifyStub [userInactive] "bob" "pw" =
      .ok ("access_token:" ++ userInactive.username, userInactive.id,
        userInactive.username) :=
  ⟨(authenticate_ignores_active_flag verifyStub [userInactive] "bob" "pw"
      userInactive).1.2 ⟨by decide, by decide⟩,
   (authenticate_ignores_active_flag verifyStub [userInactive] "bob" "pw"
      userInactive).2 (by decide) (by decide)⟩

theorem lowerChar_toNat {c : Char} (h1 : 65 ≤ c.toNat) (h2 : c.toNat ≤ 90) :
    (lowerChar c).toNat = c.toNat + 32 := by
  have hv : (c.toNat + 32).isValidChar := by
    left
    omega
  rw [lowerChar, if_pos ⟨h1, h2⟩, Char.ofNat, dif_pos hv]
  simp [Char.ofNatAux, Char.toNat, UInt32.toNat, BitVec.toNat_ofNatLt]

theorem isUpperAZ_lowerChar (c : Char) : isUpperAZ (lowerChar c) = false := by
  by_cases h : 65 ≤ c.toNat ∧ c.toNat ≤ 90
  · have := lowerChar_toNat h.1 h.2
    rw [isUpperAZ, decide_eq_false_iff_not]
    omega
  · rw [lowerChar, if_neg h, isUpperAZ, decide_eq_false_iff_not]
    exact h

theorem lowerChar_fixed {c : Char} (h : isUpperAZ c = false) : lowerChar c = c := by
  rw [isUpperAZ, decide_eq_false_iff_not] at h
  rw [lowerChar, if_neg h]

theorem map_lowerChar_fixed {l : List Char} (h : ∀ c ∈ l, isUpperAZ c = false) :
    l.map lowerChar = l := by
  rw [show l.map lowerChar = l.map id from List.map_congr_left fun a ha =>
    lowerChar_fixed (h a ha)]
  exact List.map_id l

theorem email_validator_ok_shape {v e : String} (h : email_validator v = .ok e) :
    e.data = v.data.map lowerChar := by
  unfold email_validator at h
  split_ifs at h
  rw [Except.ok.injEq] at h
  subst h
  rfl

theorem customer_validate_ok_email {req req' : CustomerCreate}
    (h : CustomerCreate.validate req = .ok req') :
    req'.email.data = req.email.data.map lowerChar := by
  unfold CustomerCreate.validate at h
  cases hn : name_validator req.name with
  | error e => rw [hn] at h; exact absurd h (by simp)
  | ok name =>
    rw [hn] at h
    cases he : email_validator req.email with
    | error e => simp [he] at h
    | ok email =>
      rw [he] at h
      cases hp : phone_validator req.phone with
      | error e => simp [hp] at h
      | ok phone =>
        rw [hp] at h
        simp only [Except.ok.injEq] at h
        subst h
        exact email_validator_ok_shape he

theorem string_eq_of_data {s t : String} (h : s.data = t.data) : s = t := by
  cases s
  cases t
  exact congrArg String.mk h

/-- C10: customer email is normalized to lowercase by create-customer validation
before the duplicate check and before storage — in every customer table reachable
via create-customer, no stored email contains an uppercase ASCII letter — and a
second create whose email equals a stored customer's email up to letter case (and
passes validation) is rejected as a duplicate at the application level. -/
theorem create_customer_email_lowercase :
    (∀ s, ReachableCustomers s → ∀ c ∈ s, noUpper c.email) ∧
    (∀ s (req req' : CustomerCreate) (c : Customer), ReachableCustomers s → c ∈ s →
      req.email.data.map lowerChar = c.email.data.map lowerChar →
      CustomerCreate.validate req = .ok req' →
      create_customer s req = .error ⟨400, "Email already registered"⟩) := by
  have hinv : ∀ s, ReachableCustomers s → ∀ c ∈ s, noUpper c.email := by
    intro s h
    induction h with
    | init => intro c hc; exact absurd hc (List.not_mem_nil c)
    | step s s' req hs hok ih =>
      cases hval : CustomerCreate.validate req with
      | error e => simp [create_customer, hval] at hok
      | ok req' =>
        simp only [create_customer, hval] at hok
        split_ifs at hok with hdup
        rw [Except.ok.injEq] at hok
        subst hok
        intro c hc
        rcases List.mem_append.1 hc with hold | hnew
        · exact ih c hold
        · obtain rfl := List.mem_singleton.1 hnew
          intro ch hch
          simp only at hch
          rw [customer_validate_ok_email hval] at hch
          obtain ⟨a, _, ha⟩ := List.mem_map.1 hch
          rw [← ha]
          exact isUpperAZ_lowerChar a
  refine ⟨hinv, ?_⟩
  intro s req req' c hs hc hcase hval
  have hlower : c.email.data.map lowerChar = c.email.data :=
    map_lowerChar_fixed (hinv s hs c hc)
  have hemail : req'.email = c.email := by
    apply string_eq_of_data
    rw [customer_validate_ok_email hval, hcase, hlower]
  have hany : (s.any fun cu => cu.email == req'.email) = true := by
    rw [List.any_eq_true]
    exact ⟨c, hc, by simp [hemail]⟩
  simp [create_customer, hval, hany]

/-- Witness for C10: after storing `reqJane` (email `Jane@Example.COM`, stored as
`jane@example.com`), the stored email has no uppercase letters and a second
create with `JANE@example.com` is rejected as a duplicate. -/
theorem create_customer_email_lowercase_witness :
    noUpper custJaneStored.email ∧
    create_customer [custJaneStored] reqJane2 =
      .error ⟨400, "Email already registered"⟩ := by
  have hreach : ReachableCustomers [custJaneStored] :=
    ReachableCustomers.step [] [custJaneStored] reqJane ReachableCustomers.init (by decide)
  constructor
  · exact create_customer_email_lowercase.1 [custJaneStored] hreach custJaneStored
      (List.mem_singleton.2 rfl)
  · exact create_customer_email_lowercase.2 [custJaneStored] reqJane2
      { reqJane2 with email := "jane@example.com" } custJaneStored hreach
      (List.mem_singleton.2 rfl) (by decide) (by decide)

end Hotel
